import Mathlib

/-!
Verification of `deepseek_ocr_runner.py`, a one-file CLI script that loads
the DeepSeek-OCR model, runs one inference call on an image, and prints a
JSON result to stdout (exit 0) or a JSON error envelope to stderr (exit 1).

The script is embedded shallowly.  The external library calls
(`AutoTokenizer.from_pretrained`, `AutoModel.from_pretrained`,
`model.cuda()`, `model.eval()`, `model.infer(...)`) and the runtime query
`torch.cuda.is_available()` are parameters gathered in an `Env` record;
each fallible call returns `Except Exc _` where `Exc` models a Python
exception (its `str(e)` message and its class name).  `run_ocr` is a pure
function of the environment and its three string arguments, returning the
observable outcome: the JSON values printed to each stream, the return
value, and the trace of inference calls performed.
-/

/-- A Python exception as observed by the `except` clause: `str(e)` and
`type(e).__name__`. -/
structure Exc where
  msg : String
  typeName : String
deriving Repr, DecidableEq

/-- A Python value returned by `model.infer`: either an actual `str`, or
any other object remembered together with its `str(...)` coercion. -/
inductive PyValue where
  | pyStr (s : String)
  | pyOther (strRepr : String)
deriving Repr, DecidableEq

/-- `isinstance(result, str)`. -/
def PyValue.isinstance_str : PyValue → Bool
  | .pyStr _ => true
  | .pyOther _ => false

/-- The value itself, used on the branch where it is already a string. -/
def PyValue.asString : PyValue → String
  | .pyStr s => s
  | .pyOther r => r

/-- Python `str(result)` coercion. -/
def PyValue.str_coerce : PyValue → String
  | .pyStr s => s
  | .pyOther r => r

/-- Torch dtype selected for the model weights (`torch_dtype=torch.bfloat16`). -/
inductive DType where
  | bfloat16
deriving Repr, DecidableEq

/-- JSON values, enough for the two objects the script serializes. -/
inductive Json where
  | null
  | str (s : String)
  | num (q : ℚ)
  | obj (fields : List (String × Json))

/-- Field lookup in a JSON object. -/
def Json.lookup : Json → String → Option Json
  | .obj fields, k => fields.lookup k
  | _, _ => none

/-- The external world of the script: whether an accelerated (CUDA) device
is available, and the behaviour of every external library call it makes.
`M` is the type of model objects, `T` of tokenizers. -/
structure Env (M T : Type) where
  cudaAvailable : Bool
  loadTokenizer : (model_path : String) → (trust_remote_code : Bool) → Except Exc T
  loadModel : (model_path : String) → (trust_remote_code : Bool) → DType → Except Exc M
  cudaMove : M → Except Exc M
  evalMode : M → Except Exc M
  infer : M → T → (prompt : String) → (image_file : String) →
      (base_size : Nat) → (image_size : Nat) → Except Exc PyValue

/-- One call to `model.infer`, as recorded in the trace.  `noGrad` is true
when the call runs inside a `torch.no_grad()` context. -/
structure InferCall where
  noGrad : Bool
  prompt : String
  imageFile : String
  baseSize : Nat
  imageSize : Nat
deriving Repr, DecidableEq

/-- Observable outcome of one `run_ocr` invocation: JSON values printed to
stdout and stderr, the returned exit code, and the inference calls made. -/
structure RunResult where
  stdout : List Json
  stderr : List Json
  retcode : Nat
  inferCalls : List InferCall

/-- The error envelope printed to stderr:
`{"error": str(e), "type": type(e).__name__}`. -/
def errorEnvelope (e : Exc) : Json :=
  Json.obj [("error", Json.str e.msg), ("type", Json.str e.typeName)]

/-- The success object printed to stdout (lines 52-59 of the script). -/
def successOutput (model_path : String) (cudaAvailable : Bool) (result : PyValue) : Json :=
  Json.obj
    [("text", Json.str
        (if result.isinstance_str then result.asString else result.str_coerce)),
     ("confidence", Json.num 0.85),
     ("metadata", Json.obj
        [("model", Json.str model_path),
         ("device", Json.str (if cudaAvailable then "cuda" else "cpu"))])]

/-- The body of the `try` block: the sequence of external calls, stopping
at the first raised exception, together with the inference-call trace.
On success it yields the JSON object that `print(json.dumps(output))`
writes (serialization of this fixed shape cannot fail). -/
def run_ocr_try {M T : Type} (env : Env M T)
    (image_path prompt model_path : String) : Except Exc Json × List InferCall :=
  match env.loadTokenizer model_path true with
  | .error e => (.error e, [])
  | .ok tokenizer =>
    match env.loadModel model_path true DType.bfloat16 with
    | .error e => (.error e, [])
    | .ok model₀ =>
      match (if env.cudaAvailable then env.cudaMove model₀ else .ok model₀) with
      | .error e => (.error e, [])
      | .ok model₁ =>
        match env.evalMode model₁ with
        | .error e => (.error e, [])
        | .ok model =>
          match env.infer model tokenizer prompt image_path 1024 640 with
          | .error e => (.error e, [⟨true, prompt, image_path, 1024, 640⟩])
          | .ok result =>
            (.ok (successOutput model_path env.cudaAvailable result),
             [⟨true, prompt, image_path, 1024, 640⟩])

/-- `run_ocr(image_path, prompt, model_path)`: run the `try` body; on
success print the JSON object to stdout and return 0, on any exception
print the error envelope to stderr and return 1. -/
def run_ocr {M T : Type} (env : Env M T)
    (image_path prompt model_path : String) : RunResult :=
  match run_ocr_try env image_path prompt model_path with
  | (.ok output, calls) => ⟨[output], [], 0, calls⟩
  | (.error e, calls) => ⟨[], [errorEnvelope e], 1, calls⟩

/-- Default of the `--prompt` argument (line 76 of the script). -/
def default_prompt : String := "<image>\n<|grounding|>Extract all text from this document."

/-- Default of the `--model` argument (line 78 of the script). -/
def default_model : String := "deepseek-ai/DeepSeek-OCR"

/-- Python's `str.startswith`, computed on the character lists so that it
evaluates by reduction. -/
def strStartsWith (s pre : String) : Bool := pre.data.isPrefixOf s.data

/-- Parsed command-line arguments. -/
structure Args where
  image_path : String
  prompt : String
  model : String
deriving Repr, DecidableEq

/-- State of the argument scanner: which option is waiting for its value. -/
inductive Pending where
  | noneP
  | promptP
  | modelP
deriving Repr, DecidableEq

/-- One-token-at-a-time model of the script's `argparse` configuration:
one required positional `image_path`, options `--prompt` and `--model`
(given as `--flag value` or `--flag=value`), defaults as in the script.
`none` models an argparse parse error (which exits without calling
`run_ocr`). -/
def parse_args_loop : List String → Pending → Option String → String → String → Option Args
  | [], .noneP, some img, p, m => some ⟨img, p, m⟩
  | [], _, _, _, _ => none
  | t :: rest, .promptP, img, _, m => parse_args_loop rest .noneP img t m
  | t :: rest, .modelP, img, p, _ => parse_args_loop rest .noneP img p t
  | t :: rest, .noneP, img, p, m =>
    if t = "--prompt" then parse_args_loop rest .promptP img p m
    else if t = "--model" then parse_args_loop rest .modelP img p m
    else if strStartsWith t "--prompt=" then parse_args_loop rest .noneP img (t.drop 9) m
    else if strStartsWith t "--model=" then parse_args_loop rest .noneP img p (t.drop 8)
    else if strStartsWith t "--" then none
    else
      match img with
      | none => parse_args_loop rest .noneP (some t) p m
      | some _ => none

/-- `parser.parse_args(argv)` for the script's parser. -/
def parse_args (argv : List String) : Option Args :=
  parse_args_loop argv .noneP none default_prompt default_model

/-- `main()`: parse the arguments, run `run_ocr`, exit with its return
value.  Argparse failure exits with code 2 before `run_ocr` runs. -/
def main_entry {M T : Type} (env : Env M T) (argv : List String) : Nat × Option RunResult :=
  match parse_args argv with
  | none => (2, none)
  | some args =>
    let r := run_ocr env args.image_path args.prompt args.model
    (r.retcode, some r)

/-- A token that supplies the `--prompt` option in either accepted form. -/
def promptToken (t : String) : Prop :=
  t = "--prompt" ∨ strStartsWith t "--prompt=" = true

instance (t : String) : Decidable (promptToken t) := by
  unfold promptToken
  infer_instance

/-- The `text` field of the (unique) JSON object on stdout, if any. -/
def textField (r : RunResult) : Option Json :=
  match r.stdout with
  | [j] => j.lookup "text"
  | _ => none

/-- The `confidence` field of the (unique) JSON object on stdout, if any. -/
def confidenceField (r : RunResult) : Option Json :=
  match r.stdout with
  | [j] => j.lookup "confidence"
  | _ => none

/-- The `metadata` field of the (unique) JSON object on stdout, if any. -/
def metadataField (r : RunResult) : Option Json :=
  match r.stdout with
  | [j] => j.lookup "metadata"
  | _ => none

/-- The `metadata.device` field of the JSON object on stdout, if any. -/
def deviceField (r : RunResult) : Option Json :=
  (metadataField r).bind (fun md => md.lookup "device")

/-- Environment in which every external call succeeds, no CUDA device. -/
def okEnv : Env Unit Unit where
  cudaAvailable := false
  loadTokenizer := fun _ _ => .ok ()
  loadModel := fun _ _ _ => .ok ()
  cudaMove := fun _ => .ok ()
  evalMode := fun _ => .ok ()
  infer := fun _ _ _ _ _ _ => .ok (.pyStr "hello world")

/-- Environment in which every external call succeeds and a CUDA device
is available. -/
def okCudaEnv : Env Unit Unit where
  cudaAvailable := true
  loadTokenizer := fun _ _ => .ok ()
  loadModel := fun _ _ _ => .ok ()
  cudaMove := fun _ => .ok ()
  evalMode := fun _ => .ok ()
  infer := fun _ _ _ _ _ _ => .ok (.pyStr "hello world")

/-- Environment in which the tokenizer load raises. -/
def failTokEnv : Env Unit Unit where
  cudaAvailable := false
  loadTokenizer := fun _ _ => .error ⟨"missing.png not found", "OSError"⟩
  loadModel := fun _ _ _ => .ok ()
  cudaMove := fun _ => .ok ()
  evalMode := fun _ => .ok ()
  infer := fun _ _ _ _ _ _ => .ok (.pyStr "x")

/-- Environment in which the inference call raises. -/
def failInferEnv : Env Unit Unit where
  cudaAvailable := false
  loadTokenizer := fun _ _ => .ok ()
  loadModel := fun _ _ _ => .ok ()
  cudaMove := fun _ => .ok ()
  evalMode := fun _ => .ok ()
  infer := fun _ _ _ _ _ _ => .error ⟨"CUDA out of memory", "RuntimeError"⟩

lemma run_ocr_try_cases {M T : Type} (env : Env M T) (i p m : String) :
    (∃ e calls, run_ocr_try env i p m = (Except.error e, calls) ∧
      (calls = [] ∨ calls = [⟨true, p, i, 1024, 640⟩])) ∨
    (∃ v, run_ocr_try env i p m =
      (Except.ok (successOutput m env.cudaAvailable v), [⟨true, p, i, 1024, 640⟩])) := by
  cases h₁ : env.loadTokenizer m true with
  | error e => exact Or.inl ⟨e, [], by simp [run_ocr_try, h₁], Or.inl rfl⟩
  | ok tokenizer =>
    cases h₂ : env.loadModel m true DType.bfloat16 with
    | error e => exact Or.inl ⟨e, [], by simp [run_ocr_try, h₁, h₂], Or.inl rfl⟩
    | ok model₀ =>
      cases h₃ : (if env.cudaAvailable then env.cudaMove model₀ else Except.ok model₀) with
      | error e => exact Or.inl ⟨e, [], by simp [run_ocr_try, h₁, h₂, h₃], Or.inl rfl⟩
      | ok model₁ =>
        cases h₄ : env.evalMode model₁ with
        | error e => exact Or.inl ⟨e, [], by simp [run_ocr_try, h₁, h₂, h₃, h₄], Or.inl rfl⟩
        | ok model =>
          cases h₅ : env.infer model tokenizer p i 1024 640 with
          | error e =>
            exact Or.inl ⟨e, [⟨true, p, i, 1024, 640⟩],
              by simp [run_ocr_try, h₁, h₂, h₃, h₄, h₅], Or.inr rfl⟩
          | ok v => exact Or.inr ⟨v, by simp [run_ocr_try, h₁, h₂, h₃, h₄, h₅]⟩

lemma run_ocr_cases {M T : Type} (env : Env M T) (i p m : String) :
    (∃ e calls, run_ocr_try env i p m = (Except.error e, calls) ∧
      (calls = [] ∨ calls = [⟨true, p, i, 1024, 640⟩]) ∧
      run_ocr env i p m = ⟨[], [errorEnvelope e], 1, calls⟩) ∨
    (∃ v, run_ocr_try env i p m =
        (Except.ok (successOutput m env.cudaAvailable v), [⟨true, p, i, 1024, 640⟩]) ∧
      run_ocr env i p m =
        ⟨[successOutput m env.cudaAvailable v], [], 0, [⟨true, p, i, 1024, 640⟩]⟩) := by
  rcases run_ocr_try_cases env i p m with ⟨e, calls, h, hcalls⟩ | ⟨v, h⟩
  · exact Or.inl ⟨e, calls, h, hcalls, by unfold run_ocr; rw [h]⟩
  · exact Or.inr ⟨v, h, by unfold run_ocr; rw [h]⟩

lemma run_ocr_success {M T : Type} (env : Env M T) (i p m : String)
    (h : (run_ocr env i p m).retcode = 0) :
    ∃ v, run_ocr env i p m =
      ⟨[successOutput m env.cudaAvailable v], [], 0, [⟨true, p, i, 1024, 640⟩]⟩ := by
  rcases run_ocr_cases env i p m with ⟨e, calls, _, _, h₂⟩ | ⟨v, _, h₂⟩
  · rw [h₂] at h; exact absurd h (by simp)
  · exact ⟨v, h₂⟩

lemma run_ocr_error {M T : Type} (env : Env M T) (i p m : String) (e : Exc)
    (h : (run_ocr_try env i p m).1 = Except.error e) :
    run_ocr env i p m = ⟨[], [errorEnvelope e], 1, (run_ocr_try env i p m).2⟩ := by
  rcases run_ocr_cases env i p m with ⟨e', calls, h₁, _, h₂⟩ | ⟨v, h₁, h₂⟩
  · rw [h₁] at h
    simp only at h
    cases h
    rw [h₂, h₁]
  · rw [h₁] at h
    simp at h

lemma run_ocr_success_chain {M T : Type} (env : Env M T) (i p m : String)
    (h : (run_ocr env i p m).retcode = 0) :
    ∃ (tok : T) (model₀ model₁ model₂ : M) (v : PyValue),
      env.loadTokenizer m true = Except.ok tok ∧
      env.loadModel m true DType.bfloat16 = Except.ok model₀ ∧
      (if env.cudaAvailable then env.cudaMove model₀ else Except.ok model₀) =
        Except.ok model₁ ∧
      env.evalMode model₁ = Except.ok model₂ ∧
      env.infer model₂ tok p i 1024 640 = Except.ok v ∧
      run_ocr env i p m =
        ⟨[successOutput m env.cudaAvailable v], [], 0, [⟨true, p, i, 1024, 640⟩]⟩ := by
  cases h₁ : env.loadTokenizer m true with
  | error e =>
    rw [run_ocr_error env i p m e (by simp [run_ocr_try, h₁])] at h
    simp at h
  | ok tok =>
    cases h₂ : env.loadModel m true DType.bfloat16 with
    | error e =>
      rw [run_ocr_error env i p m e (by simp [run_ocr_try, h₁, h₂])] at h
      simp at h
    | ok model₀ =>
      cases h₃ : (if env.cudaAvailable then env.cudaMove model₀ else Except.ok model₀) with
      | error e =>
        rw [run_ocr_error env i p m e (by simp [run_ocr_try, h₁, h₂, h₃])] at h
        simp at h
      | ok model₁ =>
        cases h₄ : env.evalMode model₁ with
        | error e =>
          rw [run_ocr_error env i p m e (by simp [run_ocr_try, h₁, h₂, h₃, h₄])] at h
          simp at h
        | ok model₂ =>
          cases h₅ : env.infer model₂ tok p i 1024 640 with
          | error e =>
            rw [run_ocr_error env i p m e
              (by simp [run_ocr_try, h₁, h₂, h₃, h₄, h₅])] at h
            simp at h
          | ok v =>
            refine ⟨tok, model₀, model₁, model₂, v, rfl, rfl, h₃, h₄, h₅, ?_⟩
            unfold run_ocr
            simp [run_ocr_try, h₁, h₂, h₃, h₄, h₅]

/-- C1: every invocation of `run_ocr` produces exactly one of the two
output shapes — one JSON object on stdout with return value 0, or one
JSON object on stderr with return value 1 — never both and never
neither. -/
theorem run_ocr_exactly_one_output_shape {M T : Type} (env : Env M T) (i p m : String) :
    Xor'
      (∃ j, (run_ocr env i p m).stdout = [j] ∧ (run_ocr env i p m).stderr = [] ∧
        (run_ocr env i p m).retcode = 0)
      (∃ j, (run_ocr env i p m).stdout = [] ∧ (run_ocr env i p m).stderr = [j] ∧
        (run_ocr env i p m).retcode = 1) := by
  rcases run_ocr_cases env i p m with ⟨e, calls, _, _, h⟩ | ⟨v, _, h⟩ <;>
    rw [h] <;> simp [Xor']

/-- C2: every error raised during load or inference is caught by
`run_ocr`, which writes the JSON error envelope (to stderr) and returns
normally with value 1; no raised error escapes without the envelope
having been written. -/
theorem run_ocr_no_error_escapes {M T : Type} (env : Env M T) (i p m : String) (e : Exc)
    (h : (run_ocr_try env i p m).1 = Except.error e) :
    (run_ocr env i p m).stderr = [errorEnvelope e] ∧
    (run_ocr env i p m).retcode = 1 := by
  rw [run_ocr_error env i p m e h]
  exact ⟨rfl, rfl⟩

theorem run_ocr_no_error_escapes_witness :
    (run_ocr_try failTokEnv "missing.png" "p" "m").1 =
        Except.error ⟨"missing.png not found", "OSError"⟩ ∧
    (run_ocr failTokEnv "missing.png" "p" "m").stderr =
        [errorEnvelope ⟨"missing.png not found", "OSError"⟩] ∧
    (run_ocr failTokEnv "missing.png" "p" "m").retcode = 1 :=
  ⟨rfl, run_ocr_no_error_escapes failTokEnv "missing.png" "p" "m"
    ⟨"missing.png not found", "OSError"⟩ rfl⟩

/-- C4: on any failure raised during the try body (load, device
placement, eval-mode switch, inference), `run_ocr` emits to stderr one
JSON object whose `error` key holds the failure's message and whose
`type` key holds the failure's class name, prints nothing to stdout,
and returns exit code 1. -/
theorem run_ocr_failure_envelope_fields {M T : Type} (env : Env M T)
    (i p m : String) (e : Exc)
    (h : (run_ocr_try env i p m).1 = Except.error e) :
    (run_ocr env i p m).stderr =
      [Json.obj [("error", Json.str e.msg), ("type", Json.str e.typeName)]] ∧
    (run_ocr env i p m).stdout = [] ∧
    (run_ocr env i p m).retcode = 1 := by
  rw [run_ocr_error env i p m e h]
  exact ⟨rfl, rfl, rfl⟩

theorem run_ocr_failure_envelope_fields_witness :
    (run_ocr_try failInferEnv "doc.png" "p" "m").1 =
        Except.error ⟨"CUDA out of memory", "RuntimeError"⟩ ∧
    ((run_ocr failInferEnv "doc.png" "p" "m").stderr =
      [Json.obj [("error", Json.str "CUDA out of memory"),
                 ("type", Json.str "RuntimeError")]] ∧
    (run_ocr failInferEnv "doc.png" "p" "m").stdout = [] ∧
    (run_ocr failInferEnv "doc.png" "p" "m").retcode = 1) :=
  ⟨rfl, run_ocr_failure_envelope_fields failInferEnv "doc.png" "p" "m"
    ⟨"CUDA out of memory", "RuntimeError"⟩ rfl⟩

/-- C9: `run_ocr` is total when every external failure is an ordinary
exception (as modelled by the `Except`-valued environment): it always
returns a value, and that value is 0 or 1. -/
theorem run_ocr_total_retcode_zero_or_one {M T : Type} (env : Env M T) (i p m : String) :
    (run_ocr env i p m).retcode = 0 ∨ (run_ocr env i p m).retcode = 1 := by
  rcases run_ocr_cases env i p m with ⟨e, calls, _, _, h⟩ | ⟨v, _, h⟩
  · rw [h]; right; rfl
  · rw [h]; left; rfl

/-- C3 counterexample: with an accelerated device available and every
external call succeeding, the emitted `metadata.device` field is the
string "cuda", not the literal "accelerated" the claim names. -/
theorem run_ocr_device_not_accelerated_literal :
    okCudaEnv.cudaAvailable = true ∧
    (run_ocr okCudaEnv "doc.png" "p" "m").retcode = 0 ∧
    deviceField (run_ocr okCudaEnv "doc.png" "p" "m") = some (Json.str "cuda") ∧
    deviceField (run_ocr okCudaEnv "doc.png" "p" "m") ≠ some (Json.str "accelerated") := by
  refine ⟨rfl, rfl, rfl, ?_⟩
  intro h
  rw [show deviceField (run_ocr okCudaEnv "doc.png" "p" "m") = some (Json.str "cuda")
    from rfl] at h
  simp at h

/-- C3 (amended): in the success output the `metadata.device` field is
the string "cuda" exactly when an accelerated device is available, else
"cpu", and it is always one of those two designators. -/
theorem run_ocr_device_field {M T : Type} (env : Env M T) (i p m : String)
    (h : (run_ocr env i p m).retcode = 0) :
    deviceField (run_ocr env i p m) =
      some (Json.str (if env.cudaAvailable then "cuda" else "cpu")) ∧
    (deviceField (run_ocr env i p m) = some (Json.str "cuda") ∨
     deviceField (run_ocr env i p m) = some (Json.str "cpu")) := by
  obtain ⟨v, hv⟩ := run_ocr_success env i p m h
  rw [hv]
  cases hc : env.cudaAvailable <;>
    simp [deviceField, metadataField, successOutput, Json.lookup, List.lookup, hc]

theorem run_ocr_device_field_witness :
    (run_ocr okEnv "doc.png" "p" "m").retcode = 0 ∧
    (deviceField (run_ocr okEnv "doc.png" "p" "m") =
      some (Json.str (if okEnv.cudaAvailable then "cuda" else "cpu")) ∧
    (deviceField (run_ocr okEnv "doc.png" "p" "m") = some (Json.str "cuda") ∨
     deviceField (run_ocr okEnv "doc.png" "p" "m") = some (Json.str "cpu"))) :=
  ⟨rfl, run_ocr_device_field okEnv "doc.png" "p" "m" rfl⟩

/-- C5: on every successful invocation the emitted `text` field is
present, is a JSON string (in particular not null), and equals the value
that the run's inference call `env.infer` returned — the result itself
when it is a Python `str`, else its `str(...)` coercion.  The chain of
equations ties the witnesses to the actual external-call results: `tok`
is what the tokenizer load returned, `model₂` the model after the device
move and eval-mode switch, and `v` the result of the one inference call
performed with them. -/
theorem run_ocr_text_field {M T : Type} (env : Env M T) (i p m : String)
    (h : (run_ocr env i p m).retcode = 0) :
    ∃ (tok : T) (model₀ model₁ model₂ : M) (v : PyValue),
      env.loadTokenizer m true = Except.ok tok ∧
      env.loadModel m true DType.bfloat16 = Except.ok model₀ ∧
      (if env.cudaAvailable then env.cudaMove model₀ else Except.ok model₀) =
        Except.ok model₁ ∧
      env.evalMode model₁ = Except.ok model₂ ∧
      env.infer model₂ tok p i 1024 640 = Except.ok v ∧
      (run_ocr env i p m).stdout = [successOutput m env.cudaAvailable v] ∧
      textField (run_ocr env i p m) =
        some (Json.str (if v.isinstance_str then v.asString else v.str_coerce)) ∧
      textField (run_ocr env i p m) ≠ some Json.null ∧
      textField (run_ocr env i p m) ≠ none := by
  obtain ⟨tok, model₀, model₁, model₂, v, h₁, h₂, h₃, h₄, h₅, hv⟩ :=
    run_ocr_success_chain env i p m h
  refine ⟨tok, model₀, model₁, model₂, v, h₁, h₂, h₃, h₄, h₅, by rw [hv], ?_, ?_, ?_⟩ <;>
    rw [hv] <;> simp [textField, successOutput, Json.lookup]

theorem run_ocr_text_field_witness :
    (run_ocr okEnv "doc.png" "p" "m").retcode = 0 ∧
    ∃ (tok : Unit) (model₀ model₁ model₂ : Unit) (v : PyValue),
      okEnv.loadTokenizer "m" true = Except.ok tok ∧
      okEnv.loadModel "m" true DType.bfloat16 = Except.ok model₀ ∧
      (if okEnv.cudaAvailable then okEnv.cudaMove model₀ else Except.ok model₀) =
        Except.ok model₁ ∧
      okEnv.evalMode model₁ = Except.ok model₂ ∧
      okEnv.infer model₂ tok "p" "doc.png" 1024 640 = Except.ok v ∧
      (run_ocr okEnv "doc.png" "p" "m").stdout =
        [successOutput "m" okEnv.cudaAvailable v] ∧
      textField (run_ocr okEnv "doc.png" "p" "m") =
        some (Json.str (if v.isinstance_str then v.asString else v.str_coerce)) ∧
      textField (run_ocr okEnv "doc.png" "p" "m") ≠ some Json.null ∧
      textField (run_ocr okEnv "doc.png" "p" "m") ≠ none :=
  ⟨rfl, run_ocr_text_field okEnv "doc.png" "p" "m" rfl⟩

/-- C7: on every successful invocation, whatever the image, prompt,
model identifier, environment, or inference result, the emitted
`confidence` field equals the fixed constant 0.85. -/
theorem run_ocr_confidence_constant {M T : Type} (env : Env M T) (i p m : String)
    (h : (run_ocr env i p m).retcode = 0) :
    confidenceField (run_ocr env i p m) = some (Json.num 0.85) := by
  obtain ⟨v, hv⟩ := run_ocr_success env i p m h
  rw [hv]
  simp [confidenceField, successOutput, Json.lookup, List.lookup]

theorem run_ocr_confidence_constant_witness :
    (run_ocr okEnv "doc.png" "p" "m").retcode = 0 ∧
    confidenceField (run_ocr okEnv "doc.png" "p" "m") = some (Json.num 0.85) :=
  ⟨rfl, run_ocr_confidence_constant okEnv "doc.png" "p" "m" rfl⟩

/-- C8 counterexample: when the tokenizer load raises, the invocation
performs zero inference calls, so "every invocation performs exactly one
inference call" fails. -/
theorem run_ocr_zero_infer_calls_on_load_failure :
    (run_ocr failTokEnv "doc.png" "p" "m").inferCalls = [] ∧
    (run_ocr failTokEnv "doc.png" "p" "m").inferCalls.length ≠ 1 := by
  refine ⟨rfl, ?_⟩
  intro h
  rw [show (run_ocr failTokEnv "doc.png" "p" "m").inferCalls = [] from rfl] at h
  simp at h

/-- C8 (amended): every invocation performs at most one inference call;
whenever one is performed — in particular on every success — it runs with
gradient tracking disabled and passes the supplied prompt and image path
with base resolution 1024 and working image resolution 640. -/
theorem run_ocr_at_most_one_infer_call {M T : Type} (env : Env M T) (i p m : String) :
    ((run_ocr env i p m).inferCalls = [] ∨
      (run_ocr env i p m).inferCalls =
        [⟨true, p, i, 1024, 640⟩]) ∧
    ((run_ocr env i p m).retcode = 0 →
      (run_ocr env i p m).inferCalls = [⟨true, p, i, 1024, 640⟩]) := by
  rcases run_ocr_cases env i p m with ⟨e, calls, _, hcalls, h⟩ | ⟨v, _, h⟩
  · rw [h]
    refine ⟨hcalls, ?_⟩
    intro hret
    simp at hret
  · rw [h]
    exact ⟨Or.inr rfl, fun _ => rfl⟩

theorem run_ocr_at_most_one_infer_call_witness :
    (run_ocr okEnv "doc.png" "the prompt" "m").inferCalls =
      [⟨true, "the prompt", "doc.png", 1024, 640⟩] :=
  (run_ocr_at_most_one_infer_call okEnv "doc.png" "the prompt" "m").2 rfl

/-- C10: with the environment (accelerator availability and external call
behaviour) fixed, `run_ocr` is a function of its arguments — two
invocations with the same image path, prompt and model identifier give
identical results — and on success the `metadata` and `confidence` fields
depend only on the model identifier and accelerator availability, not on
the prompt or the image path. -/
theorem run_ocr_deterministic_and_metadata_independent {M T : Type} (env : Env M T)
    (i₁ p₁ i₂ p₂ m : String)
    (h₁ : (run_ocr env i₁ p₁ m).retcode = 0)
    (h₂ : (run_ocr env i₂ p₂ m).retcode = 0) :
    (∀ i p, run_ocr env i p m = run_ocr env i p m) ∧
    metadataField (run_ocr env i₁ p₁ m) = metadataField (run_ocr env i₂ p₂ m) ∧
    metadataField (run_ocr env i₁ p₁ m) =
      some (Json.obj [("model", Json.str m),
        ("device", Json.str (if env.cudaAvailable then "cuda" else "cpu"))]) ∧
    confidenceField (run_ocr env i₁ p₁ m) = confidenceField (run_ocr env i₂ p₂ m) := by
  obtain ⟨v₁, hv₁⟩ := run_ocr_success env i₁ p₁ m h₁
  obtain ⟨v₂, hv₂⟩ := run_ocr_success env i₂ p₂ m h₂
  rw [hv₁, hv₂]
  refine ⟨fun _ _ => rfl, ?_, ?_, ?_⟩ <;>
    simp [metadataField, confidenceField, successOutput, Json.lookup, List.lookup]

theorem run_ocr_deterministic_and_metadata_independent_witness :
    (run_ocr okEnv "a.png" "first prompt" "m").retcode = 0 ∧
    (run_ocr okEnv "b.png" "second prompt" "m").retcode = 0 ∧
    ((∀ i p, run_ocr okEnv i p "m" = run_ocr okEnv i p "m") ∧
    metadataField (run_ocr okEnv "a.png" "first prompt" "m") =
      metadataField (run_ocr okEnv "b.png" "second prompt" "m") ∧
    metadataField (run_ocr okEnv "a.png" "first prompt" "m") =
      some (Json.obj [("model", Json.str "m"),
        ("device", Json.str (if okEnv.cudaAvailable then "cuda" else "cpu"))]) ∧
    confidenceField (run_ocr okEnv "a.png" "first prompt" "m") =
      confidenceField (run_ocr okEnv "b.png" "second prompt" "m")) :=
  ⟨rfl, rfl,
    run_ocr_deterministic_and_metadata_independent okEnv
      "a.png" "first prompt" "b.png" "second prompt" "m" rfl rfl⟩

lemma parse_args_loop_prompt_default :
    ∀ (argv : List String) (pend : Pending) (img : Option String) (p m : String)
      (args : Args),
      (∀ t ∈ argv, ¬ promptToken t) → pend ≠ Pending.promptP →
      parse_args_loop argv pend img p m = some args → args.prompt = p := by
  intro argv
  induction argv with
  | nil =>
    intro pend img p m args _ hpend hparse
    cases pend with
    | noneP =>
      cases img with
      | none => simp [parse_args_loop] at hparse
      | some i =>
        simp [parse_args_loop] at hparse
        rw [← hparse]
    | promptP => exact absurd rfl hpend
    | modelP => simp [parse_args_loop] at hparse
  | cons t rest ih =>
    intro pend img p m args hnp hpend hparse
    have hnpt : ¬ promptToken t := hnp t (List.mem_cons_self t rest)
    have hnprest : ∀ u ∈ rest, ¬ promptToken u :=
      fun u hu => hnp u (List.mem_cons_of_mem t hu)
    cases pend with
    | promptP => exact absurd rfl hpend
    | modelP =>
      rw [show parse_args_loop (t :: rest) Pending.modelP img p m =
        parse_args_loop rest Pending.noneP img p t from rfl] at hparse
      exact ih Pending.noneP img p t args hnprest (by simp) hparse
    | noneP =>
      have h1 : ¬ (t = "--prompt") := fun h => hnpt (Or.inl h)
      have h3 : ¬ (strStartsWith t "--prompt=" = true) := fun h => hnpt (Or.inr h)
      by_cases h2 : t = "--model"
      · simp [parse_args_loop, h1, h2] at hparse
        exact ih Pending.modelP img p m args hnprest (by simp) hparse
      · by_cases h4 : strStartsWith t "--model=" = true
        · simp [parse_args_loop, h1, h2, h3, h4] at hparse
          exact ih Pending.noneP img p (t.drop 8) args hnprest (by simp) hparse
        · by_cases h5 : strStartsWith t "--" = true
          · simp [parse_args_loop, h1, h2, h3, h4, h5] at hparse
          · cases img with
            | none =>
              simp [parse_args_loop, h1, h2, h3, h4, h5] at hparse
              exact ih Pending.noneP (some t) p m args hnprest (by simp) hparse
            | some i =>
              simp [parse_args_loop, h1, h2, h3, h4, h5] at hparse

/-- C6: when the command line supplies no `--prompt` option (in either
accepted form), the parsed prompt is the documented default instruction
string verbatim, and every inference call the run performs passes that
default prompt. -/
theorem parse_args_default_prompt {M T : Type} (env : Env M T)
    (argv : List String) (args : Args)
    (hnp : ∀ t ∈ argv, ¬ promptToken t)
    (hparse : parse_args argv = some args) :
    args.prompt = default_prompt ∧
    args.prompt = "<image>\n<|grounding|>Extract all text from this document." ∧
    ∀ c ∈ (run_ocr env args.image_path args.prompt args.model).inferCalls,
      c.prompt = default_prompt := by
  have hp : args.prompt = default_prompt :=
    parse_args_loop_prompt_default argv Pending.noneP none default_prompt
      default_model args hnp (by simp) hparse
  refine ⟨hp, by rw [hp]; rfl, ?_⟩
  intro c hc
  rcases run_ocr_cases env args.image_path args.prompt args.model with
    ⟨e, calls, _, hcalls, h⟩ | ⟨v, _, h⟩
  · rw [h] at hc
    rcases hcalls with hnil | hone
    · rw [hnil] at hc; simp at hc
    · rw [hone] at hc
      simp at hc
      rw [hc]
      exact hp
  · rw [h] at hc
    simp at hc
    rw [hc]
    exact hp

theorem parse_args_default_prompt_witness :
    (∀ t ∈ ["doc.png"], ¬ promptToken t) ∧
    parse_args ["doc.png"] = some ⟨"doc.png", default_prompt, default_model⟩ ∧
    ((Args.mk "doc.png" default_prompt default_model).prompt = default_prompt ∧
    (Args.mk "doc.png" default_prompt default_model).prompt =
      "<image>\n<|grounding|>Extract all text from this document." ∧
    ∀ c ∈ (run_ocr okEnv (Args.mk "doc.png" default_prompt default_model).image_path
        (Args.mk "doc.png" default_prompt default_model).prompt
        (Args.mk "doc.png" default_prompt default_model).model).inferCalls,
      c.prompt = default_prompt) :=
  ⟨by decide, by decide,
    parse_args_default_prompt okEnv ["doc.png"]
      ⟨"doc.png", default_prompt, default_model⟩ (by decide) (by decide)⟩
